import Mathlib

/-!
Shallow embedding of the authenticated API client and the practice-quiz
grading engine of the AI-Powered Learning Companion frontend
(`src/frontend/src/services/firebaseService.js`, the axios instance module,
`src/frontend/src/context/AuthContext.jsx`, the `App` routing module and
`src/frontend/src/components/auth/Login.jsx`), together with theorems
settling the specification claims about them.

Conventions of the embedding:
* the persisted Credential Store (the `localStorage` slot `firebaseToken`)
  is an `Option String`: `none` means the slot holds no value;
* JavaScript exceptions are modelled with `Except JsError`; a thrown and
  caught exception follows exactly the `try`/`catch` structure of the
  source, and mutations performed before a throw are kept (JS exceptions
  do not roll back state), so failing steps carry the state at the throw;
* asynchronous functions are modelled as functions of their awaited
  results: an environment record supplies the outcome of each external
  call (Firebase sign-in/sign-out/`getIdToken`, `localStorage` faults).
-/

/-- A JavaScript exception value (only its identity matters here). -/
abbrev JsError := String

/-- The persisted Credential Store: the `localStorage` key `firebaseToken`.
`none` models an absent key (JS `localStorage.getItem` returning `null`). -/
abbrev Store := Option String

/-- JS string truthiness for `localStorage.getItem` results: `null` and the
empty string are falsy, every other string is truthy. -/
def truthy : Store → Bool
  | none => false
  | some s => s ≠ ""

/-- Whitespace as stripped by JS `String.prototype.trim` (the characters
occurring in bearer tokens' surroundings: space, tab, newline, carriage
return). -/
def isJsWhitespace (c : Char) : Bool :=
  c = ' ' || c = '\t' || c = '\n' || c = '\r'

/-- JS `String.prototype.trim`: strip surrounding whitespace, modelled
character by character. -/
def jsTrim (s : String) : String :=
  String.mk (((s.data.dropWhile isJsWhitespace).reverse.dropWhile
    isJsWhitespace).reverse)

/-! ## Grading engine (`handleQuizSubmit` in `Login.jsx`)

The practice-quiz grading computation of `handleQuizSubmit`:
for each generated question it compares the stored selection
`selectedAnswers[index]` (a one-letter string, or absent) with
`question.correct_answer.charAt(0)`, counts the matches and divides by
the number of questions. -/

/-- One generated question as consumed by `handleQuizSubmit`
(`generatedContent.data` entries). -/
structure Question where
  text : String
  correct_answer : String
  explanation : String
deriving Repr, DecidableEq

/-- One entry of the per-question `results` array built by
`handleQuizSubmit`. `selected_option` is `none` when
`selectedAnswers[index]` was `undefined` (question unanswered). -/
structure GradedQuestion where
  question : String
  selected_option : Option String
  correct_answer : String
  is_correct : Bool
  explanation : String
deriving Repr, DecidableEq

/-- A JS number as produced by the score division: an actual rational
value, `NaN` (from `0/0`), or `Infinity` (from `k/0`, `k > 0`). -/
inductive JsNum where
  | num : ℚ → JsNum
  | nan : JsNum
  | inf : JsNum
deriving Repr, DecidableEq

/-- JS division of two nonnegative integers, as a `JsNum`:
division by zero yields `NaN` for `0/0` and `Infinity` otherwise. -/
def jsDiv (a b : ℕ) : JsNum :=
  if b = 0 then (if a = 0 then JsNum.nan else JsNum.inf)
  else JsNum.num ((a : ℚ) / (b : ℚ))

/-- JS `String.prototype.charAt(0)`: the first character as a one-character
string, or the empty string when the string is empty. -/
def charAt0 (s : String) : String :=
  match s.data with
  | [] => ""
  | c :: _ => String.mk [c]

/-- The `selectedAnswers` object: a partial map from question position to
the selected option letter (`handleAnswerSelect` stores
`option.charAt(0)`); `none` models an absent property (`undefined`). -/
abbrev AnswerRecord := ℕ → Option String

/-- The `results` array built inside `handleQuizSubmit`:
`generatedContent.data.map((question, index) => ...)` with
`isCorrect = selectedAnswers[index] === question.correct_answer.charAt(0)`
(JS strict equality of a possibly-`undefined` value with a string is
`Option` equality here). -/
def gradeResults (questions : List Question) (selectedAnswers : AnswerRecord) :
    List GradedQuestion :=
  questions.enum.map fun p =>
    let isCorrect := selectedAnswers p.1 == some (charAt0 p.2.correct_answer)
    { question := p.2.text
      selected_option := selectedAnswers p.1
      correct_answer := charAt0 p.2.correct_answer
      is_correct := isCorrect
      explanation := p.2.explanation }

/-- The grading computation of `handleQuizSubmit`: builds the `results`
array, counts `correctAnswers` and computes
`score = correctAnswers / totalQuestions`. The computation is wrapped in
the JS exception monad: no operation in the loop body can throw
(property access on the `selectedAnswers` object yields `undefined` when
absent, `charAt` never throws, and JS numeric division never throws), so
the result is always returned normally. -/
def gradeQuiz (questions : List Question) (selectedAnswers : AnswerRecord) :
    Except JsError (JsNum × List GradedQuestion) :=
  let results := gradeResults questions selectedAnswers
  let correctAnswers := results.countP (fun r => r.is_correct)
  let score := jsDiv correctAnswers questions.length
  Except.ok (score, results)

/-- An empty `selectedAnswers` object: no question answered. -/
def noAnswers : AnswerRecord := fun _ => none

/-! ## Session Controller: `logout` (`AuthContext.jsx`) and
`logoutFirebase` (`firebaseService.js`)

`logoutFirebase` awaits Firebase `signOut` and, on success, removes the
stored token and returns `true`; its `catch` logs and rethrows.
`AuthContext.logout` awaits `logoutFirebase`, then removes the stored
token and returns `true`; its `catch` logs and returns `false`. -/

/-- `logoutFirebase` of `firebaseService.js`, as a function of the awaited
`signOut(auth)` outcome and the current Credential Store. Returns the new
store and the returned boolean, or the rethrown exception (note the
`localStorage.removeItem` is skipped when `signOut` throws, because the
`catch` rethrows before reaching it). -/
def logoutFirebase (signOutResult : Except JsError Unit) (_store : Store) :
    Except JsError (Store × Bool) :=
  match signOutResult with
  | Except.ok _ => Except.ok (none, true)
  | Except.error e => Except.error e

/-- `logout` of `AuthContext.jsx`: awaits `logoutFirebase`, then removes
the stored token and returns `true`; when `logoutFirebase` throws, the
`catch` returns `false` without touching the store (the `removeItem` call
sits after the `await` inside the `try`). -/
def logout (signOutResult : Except JsError Unit) (store : Store) :
    Store × Bool :=
  match logoutFirebase signOutResult store with
  | Except.ok (_, _) => (none, true)
  | Except.error _ => (store, false)

/-! ## Authorized Request Pipeline: the axios interceptors
(the `api` module importing from `firebaseService.js`) -/

/-- JS `s.includes(sub)` on strings: substring containment, via an
explicit prefix scan over the character lists. -/
def isPrefixChars : List Char → List Char → Bool
  | [], _ => true
  | _ :: _, [] => false
  | a :: as, b :: bs => a = b && isPrefixChars as bs

/-- Scan helper for `jsIncludes`: does `sub` occur in the string? -/
def containsChars (sub : List Char) : List Char → Bool
  | [] => isPrefixChars sub []
  | c :: rest => isPrefixChars sub (c :: rest) || containsChars sub rest

/-- JS `s.includes(sub)`. -/
def jsIncludes (s sub : String) : Bool := containsChars sub.data s.data

/-- The rejected value seen by the axios response error interceptor:
`code` (e.g. `"ECONNABORTED"` for a timeout), `response` with its HTTP
status when the server answered, and the error `message`. -/
structure AxiosError where
  code : Option String
  response : Option ℕ
  message : String
deriving Repr, DecidableEq

/-- Axios invariant relating the fields of a rejection: a timeout
(`code = "ECONNABORTED"`) aborts the request before any server answer, so
it never carries a `response`. -/
def AxiosError.wfTimeout (e : AxiosError) : Prop :=
  e.code = some "ECONNABORTED" → e.response = none

/-- The browser-visible state the response interceptor touches: the
Credential Store, `window.location.pathname`, and the navigation target
assigned to `window.location.href` (if any). -/
structure BrowserState where
  store : Store
  pathname : String
  redirectedTo : Option String
deriving Repr, DecidableEq

/-- The axios response error interceptor of the `api` module: on a
timeout it only logs; on a received response it logs and, exactly for
status 401, removes the stored token and — when
`window.location.pathname` does not contain `'/login'` — assigns
`window.location.href = '/login'`; other errors only log. In every case
the original error is re-rejected unchanged to the caller (not modelled:
it carries no state). The success handler passes responses through
untouched, so only rejections reach this function. -/
def responseInterceptorOnError (e : AxiosError) (st : BrowserState) :
    BrowserState :=
  if e.code = some "ECONNABORTED" then st
  else
    match e.response with
    | some status =>
        if status = 401 then
          let st1 : BrowserState := { st with store := none }
          if jsIncludes st.pathname "/login" then st1
          else { st1 with redirectedTo := some "/login" }
        else st
    | none => st

/-- The outcome of every external call the request interceptor can make:
whether `auth.currentUser` is non-null, the awaited
`currentUser.getIdToken(true)` outcome, and whether the `localStorage`
reads/writes throw. When `getItem` does not throw it returns the current
store value. -/
structure RequestEnv where
  hasCurrentUser : Bool
  mintFresh : Except JsError String
  getItemThrows : Bool
  setItemThrows : Bool
deriving Repr

/-- The mutable request configuration: only the `Authorization` header
matters to the claims (`config.headers['Authorization']`). -/
structure RequestConfig where
  authorization : Option String
deriving Repr, DecidableEq

/-- The cached-token fallback shared by both branches of the request
interceptor: `const cachedToken = localStorage.getItem('firebaseToken');
if (cachedToken) { config.headers['Authorization'] =
`Bearer ${cachedToken.trim()}`; }` — JS truthiness makes the empty
string fall through. -/
def attachCached (store : Store) (cfg : RequestConfig) : RequestConfig :=
  match store with
  | some cachedToken =>
      if cachedToken ≠ "" then
        { cfg with authorization := some ("Bearer " ++ jsTrim cachedToken) }
      else cfg
  | none => cfg

/-- The body of the request interceptor up to (not including) the outer
`catch`: errors carry the `(config, store)` state at the throw point,
since JS exceptions keep prior mutations. Mirrors: if `auth.currentUser`
is set, `try` a forced `getIdToken(true)`, set the header to the trimmed
token and `setItem` the raw token; the inner `catch` falls back to the
cached token (where the `getItem` itself may throw to the outer catch);
with no current user, go straight to the cached-token fallback. -/
def requestInterceptorBody (env : RequestEnv) (store : Store)
    (cfg : RequestConfig) :
    Except (JsError × RequestConfig × Store) (RequestConfig × Store) :=
  if env.hasCurrentUser then
    let minted : Except (JsError × RequestConfig × Store) (RequestConfig × Store) :=
      match env.mintFresh with
      | Except.ok token =>
          let cfg1 : RequestConfig :=
            { cfg with authorization := some ("Bearer " ++ jsTrim token) }
          if env.setItemThrows then Except.error ("setItem failed", cfg1, store)
          else Except.ok (cfg1, some token)
      | Except.error e => Except.error (e, cfg, store)
    match minted with
    | Except.ok r => Except.ok r
    | Except.error (_, cfg1, store1) =>
        if env.getItemThrows then Except.error ("getItem failed", cfg1, store1)
        else Except.ok (attachCached store1 cfg1, store1)
  else
    if env.getItemThrows then Except.error ("getItem failed", cfg, store)
    else Except.ok (attachCached store cfg, store)

/-- The full request interceptor of the `api` module: the body wrapped in
the outer `try`/`catch`, whose handler only `console.warn`s; control then
reaches the final `return config`, so the promise returned to axios
always resolves with a configuration. -/
def requestInterceptor (env : RequestEnv) (store : Store)
    (cfg : RequestConfig) : Except JsError (RequestConfig × Store) :=
  match requestInterceptorBody env store cfg with
  | Except.ok r => Except.ok r
  | Except.error (_, cfg1, store1) => Except.ok (cfg1, store1)

/-! ## Session Controller: `login` and `register` (`AuthContext.jsx`) over
`loginWithEmailPassword` / `registerWithEmailPassword`
(`firebaseService.js`) -/

/-- Outcomes of the external Firebase calls awaited by the login and
registration paths: `signIn`/`signUp` (the credential-producing calls —
on success Firebase always yields a non-null `userCredential.user`),
`updateProfile`, and the two flavours of `user.getIdToken`:
`mintForced` is `getIdToken(true)` (forced refresh), `mintUnforced` is
`getIdToken()` (cached allowed). -/
structure AuthEnv where
  signIn : Except JsError Unit
  signUp : Except JsError Unit
  hasDisplayName : Bool
  updateProfile : Except JsError Unit
  mintForced : Except JsError String
  mintUnforced : Except JsError String

/-- `loginWithEmailPassword` of `firebaseService.js`: awaits
`signInWithEmailAndPassword`, then in an inner `try` mints a forced token
and stores it, the inner `catch` only logging; the outer `catch` logs and
rethrows. Returns the resulting store (the returned `user` is non-null
exactly when the call succeeds, so it is left implicit). -/
def loginWithEmailPassword (env : AuthEnv) (store : Store) :
    Except JsError Store :=
  match env.signIn with
  | Except.error e => Except.error e
  | Except.ok _ =>
      match env.mintForced with
      | Except.ok token => Except.ok (some token)
      | Except.error _ => Except.ok store

/-- `registerWithEmailPassword` of `firebaseService.js`: awaits
`createUserWithEmailAndPassword`, then `updateProfile` when a display
name was given (a failure there propagates: it sits in the outer `try`,
whose `catch` rethrows), then in an inner `try` mints a forced token and
stores it, the inner `catch` only logging. -/
def registerWithEmailPassword (env : AuthEnv) (store : Store) :
    Except JsError Store :=
  match env.signUp with
  | Except.error e => Except.error e
  | Except.ok _ =>
      match (if env.hasDisplayName then env.updateProfile else Except.ok ()) with
      | Except.error e => Except.error e
      | Except.ok _ =>
          match env.mintForced with
          | Except.ok token => Except.ok (some token)
          | Except.error _ => Except.ok store

/-- `login` of `AuthContext.jsx`: awaits `loginWithEmailPassword`; with
the (always non-null) user in hand it awaits a forced `getIdToken(true)`,
stores the token and returns `true`; the inner `catch` rethrows the token
error, which the outer `catch` rethrows unchanged. Result: the new store
and the returned boolean, or the propagated exception. -/
def login (env : AuthEnv) (store : Store) : Except JsError (Store × Bool) :=
  match loginWithEmailPassword env store with
  | Except.error e => Except.error e
  | Except.ok _ =>
      match env.mintForced with
      | Except.ok token => Except.ok (some token, true)
      | Except.error e => Except.error e

/-- `register` of `AuthContext.jsx`: awaits `registerWithEmailPassword`;
with the (always non-null) user in hand it awaits an unforced
`getIdToken()` — not `getIdToken(true)` — stores the token and returns
`true`; the inner `catch` only logs the token error, after which control
falls through to `return false`. Only errors thrown by
`registerWithEmailPassword` itself reach the outer `catch` and are
rethrown. -/
def register (env : AuthEnv) (store : Store) : Except JsError (Store × Bool) :=
  match registerWithEmailPassword env store with
  | Except.error e => Except.error e
  | Except.ok store1 =>
      match env.mintUnforced with
      | Except.ok token => Except.ok (some token, true)
      | Except.error _ => Except.ok (store1, false)

/-! ## Session Controller: the `onAuthStateChanged` subscription handler
(`AuthProvider` effect in `AuthContext.jsx`) -/

/-- The `onAuthStateChanged` callback body of the `AuthProvider` effect,
as a function of the notified principal and the awaited forced
`getIdToken(true)` outcome. With a non-null user it stores the fresh
token (the subsequent `/users/me` verification call only logs its own
failure and is reached only on this success path; its request runs the
separately modelled `requestInterceptor`); the `catch` of a mint failure
only logs, leaving the store untouched. With a null user it removes the
stored token. `setLoading(false)` always runs; the second component is
the `loading` flag after the handler. -/
def onAuthStateChangedHandler (user : Option Unit)
    (mintForced : Except JsError String) (store : Store) : Store × Bool :=
  match user with
  | some _ =>
      (match mintForced with
       | Except.ok token => some token
       | Except.error _ => store, false)
  | none => (none, false)

/-! ## Protected-route gating (`ProtectedRoute` in the `App` routing
module, and the `AuthProvider` render of `AuthContext.jsx`) -/

/-- What a gated route renders. -/
inductive Render where
  | nothingAtAll
  | loadingSpinner
  | redirectToLogin
  | childContent
deriving Repr, DecidableEq

/-- `ProtectedRoute` of the `App` module: `if (!isAuthenticated) return
<Navigate to="/login" replace />;` then `if (currentUser === null)`
render the spinner, else render the children. -/
def ProtectedRoute (currentUser : Option Unit) (isAuthenticated : Bool) :
    Render :=
  if ¬ isAuthenticated then Render.redirectToLogin
  else if currentUser = none then Render.loadingSpinner
  else Render.childContent

/-- The `isAuthenticated` value the `AuthProvider` exposes through
context: `!!firebaseUser`. -/
def isAuthenticatedValue (firebaseUser : Option Unit) : Bool :=
  firebaseUser.isSome

/-- The `AuthProvider` render: `{!loading && children}` — while `loading`
is `true` the provider renders nothing at all and its children (the
routes, including every `ProtectedRoute`) are not mounted. -/
def authProviderRender (loading : Bool) (children : Render) : Render :=
  if loading then Render.nothingAtAll else children

/-- The spec's tri-state session state, mapped onto the `AuthProvider`
state pair `(loading, firebaseUser)`: `unknown` before the first
`onAuthStateChanged` notification (`loading = true`, user still `null`),
`unauthenticated` after a null-principal notification, `authenticated`
after a non-null one. -/
inductive SessionState where
  | unknown
  | unauthenticated
  | authenticated
deriving Repr, DecidableEq

/-- The `loading` flag in each session state. -/
def sessionLoading : SessionState → Bool
  | SessionState.unknown => true
  | _ => false

/-- The `firebaseUser` value in each session state. -/
def sessionUser : SessionState → Option Unit
  | SessionState.authenticated => some ()
  | _ => none

/-- What a protected route shows in each session state: the
`AuthProvider` gate composed with `ProtectedRoute` fed from the context
value. -/
def protectedGate (s : SessionState) : Render :=
  authProviderRender (sessionLoading s)
    (ProtectedRoute (sessionUser s) (isAuthenticatedValue (sessionUser s)))

/-! ## Theorems settling the claims -/

/-- Counterexample to claim C1: when the remote `signOut` throws, `logout`
returns `false` and the Credential Store still holds its previous token —
the local cleanup is skipped, because the `removeItem` call sits after the
throwing `await` inside the `try` and the `catch` returns without
clearing. -/
theorem logout_keeps_token_when_signOut_throws :
    logout (Except.error "network down") (some "tok") = (some "tok", false) ∧
    (some "tok" : Store) ≠ (none : Store) := by
  exact ⟨rfl, by simp⟩

/-- C1 (amended): `logout` clears the Credential Store and returns `true`
exactly when the remote sign-out call succeeds; when the remote call
throws, `logout` returns `false` and the Credential Store is left
unchanged (the local cleanup is conditional on remote success, not
unconditional). -/
theorem logout_store_characterization :
    (∀ st : Store, logout (Except.ok ()) st = (none, true)) ∧
    (∀ (e : JsError) (st : Store), logout (Except.error e) st = (st, false)) :=
  ⟨fun _ => rfl, fun _ _ => rfl⟩

/-- Counterexample to claim C5: in the `unknown` session state (before the
first principal notification resolves) a protected route renders nothing
at all — the `AuthProvider` suppresses all children via
`{!loading && children}` — not a loading indicator. -/
theorem protectedGate_unknown_shows_no_spinner :
    protectedGate SessionState.unknown = Render.nothingAtAll ∧
    protectedGate SessionState.unknown ≠ Render.loadingSpinner := by
  decide

/-- C5 (amended): the gate distinguishes the two non-authenticated states,
but the `unknown` state renders nothing at all (the provider mounts no
children until the first notification) rather than a loading indicator;
the `unauthenticated` state redirects to the login entry point; the
`authenticated` state shows the protected content. In particular the
`unknown` state never causes a redirect (`nothingAtAll` and
`redirectToLogin` are distinct renders), and the loading-spinner branch
of `ProtectedRoute` is unreachable, since a null `currentUser` already
fails the `isAuthenticated` check. -/
theorem protectedGate_characterization :
    protectedGate SessionState.unknown = Render.nothingAtAll ∧
    protectedGate SessionState.unauthenticated = Render.redirectToLogin ∧
    protectedGate SessionState.authenticated = Render.childContent := by
  decide

/-- C6: the `onAuthStateChanged` handler leaves the Credential Store
unchanged when the notification carries a principal but the forced mint
fails (the failure is only logged), and clears the store when the
notification carries a null principal; in both cases `loading` ends up
`false`. -/
theorem onAuthStateChanged_store_effects :
    (∀ (e : JsError) (st : Store),
        onAuthStateChangedHandler (some ()) (Except.error e) st = (st, false)) ∧
    (∀ (mint : Except JsError String) (st : Store),
        onAuthStateChangedHandler none mint st = (none, false)) :=
  ⟨fun _ _ => rfl, fun _ _ => rfl⟩

/-- Counterexample to claim C9: grading an empty question set does not
raise an error — the computation returns normally, with score
`0 / 0 = NaN` and an empty results array. -/
theorem gradeQuiz_empty_returns_normally :
    gradeQuiz [] noAnswers = Except.ok (JsNum.nan, []) := rfl

/-- C9 (amended): invoking the grading computation on an empty question
set raises no error; it silently returns a `NaN` score (the JS division
`0 / 0`) — which is neither an error nor a numeric zero score — together
with an empty per-question array. -/
theorem gradeQuiz_empty_nan :
    ∀ sel : AnswerRecord, gradeQuiz [] sel = Except.ok (JsNum.nan, []) :=
  fun _ => rfl

/-- Counterexample to claim C2: a 401 response received while the UI sits
at `/quiz/login` — a quiz route, not the login entry point — clears the
Credential Store but does not trigger a redirect, because the code
suppresses the redirect whenever `window.location.pathname` contains the
substring `/login`, not only when the location is the login entry point
itself. -/
theorem responseInterceptor_401_no_redirect_on_quiz_login_path :
    (responseInterceptorOnError
        { code := none, response := some 401, message := "Unauthorized" }
        { store := some "tok", pathname := "/quiz/login",
          redirectedTo := none }).store = none ∧
    (responseInterceptorOnError
        { code := none, response := some 401, message := "Unauthorized" }
        { store := some "tok", pathname := "/quiz/login",
          redirectedTo := none }).redirectedTo = none ∧
    ("/quiz/login" : String) ≠ "/login" := by
  refine ⟨rfl, rfl, by decide⟩

/-- C2 (amended): on every rejection carrying a response with the
authorization-failure status 401 (a timeout rejection never carries a
response), the response interceptor clears the Credential Store and —
unless the current pathname contains the substring `/login` (which
includes the login entry point itself) — assigns the login entry point to
`window.location.href`; a rejection whose status is not 401, or which
carries no response at all, leaves the browser state untouched. -/
theorem responseInterceptor_401_characterization :
    (∀ (e : AxiosError) (st : BrowserState), e.wfTimeout →
        e.response = some 401 →
        responseInterceptorOnError e st =
          { store := none, pathname := st.pathname,
            redirectedTo :=
              if jsIncludes st.pathname "/login" then st.redirectedTo
              else some "/login" }) ∧
    (∀ (e : AxiosError) (st : BrowserState), e.response ≠ some 401 →
        responseInterceptorOnError e st = st) := by
  constructor
  · intro e st hwf h401
    have hcode : e.code ≠ some "ECONNABORTED" := by
      intro hc
      rw [hwf hc] at h401
      exact Option.noConfusion h401
    simp only [responseInterceptorOnError, if_neg hcode, h401, if_pos rfl]
    by_cases hpath : jsIncludes st.pathname "/login" = true
    · simp [hpath]
    · simp [hpath]
  · intro e st h401
    by_cases hcode : e.code = some "ECONNABORTED"
    · simp [responseInterceptorOnError, hcode]
    · simp only [responseInterceptorOnError, if_neg hcode]
      cases hr : e.response with
      | none => rfl
      | some s =>
          have hs : s ≠ 401 := by
            intro hs401
            exact h401 (hs401 ▸ hr)
          simp [hs]

/-- Witness for the C2 theorem: a concrete 401 rejection at the dashboard
pathname `/` clears the store and redirects to `/login`; a concrete 500
rejection changes nothing. -/
theorem responseInterceptor_401_characterization_witness :
    responseInterceptorOnError
        { code := none, response := some 401, message := "Unauthorized" }
        { store := some "tok", pathname := "/", redirectedTo := none } =
      { store := none, pathname := "/", redirectedTo := some "/login" } ∧
    responseInterceptorOnError
        { code := none, response := some 500, message := "Server error" }
        { store := some "tok", pathname := "/", redirectedTo := none } =
      { store := some "tok", pathname := "/", redirectedTo := none } := by
  constructor
  · have h := responseInterceptor_401_characterization.1
      { code := none, response := some 401, message := "Unauthorized" }
      { store := some "tok", pathname := "/", redirectedTo := none }
      (by intro hc; exact Option.noConfusion hc) rfl
    rw [h]
    decide
  · exact responseInterceptor_401_characterization.2
      { code := none, response := some 500, message := "Server error" }
      { store := some "tok", pathname := "/", redirectedTo := none }
      (by decide)

/-- C3: in the request phase, whenever the fresh mint is unavailable (no
current principal) or fails, and the Credential Store holds a prior
token, that token is attached as the bearer `Authorization` header with
surrounding whitespace stripped, the store is left as it was, and the
request proceeds (the interceptor resolves with the configuration); when
additionally the store yields nothing (absent, or the falsy empty
string), the request proceeds with no `Authorization` header. -/
theorem requestInterceptor_cached_fallback :
    (∀ (env : RequestEnv) (t : String) (cfg : RequestConfig),
        (env.hasCurrentUser = false ∨ (∃ e, env.mintFresh = Except.error e)) →
        env.getItemThrows = false →
        t ≠ "" →
        requestInterceptor env (some t) cfg =
          Except.ok
            ({ cfg with authorization := some ("Bearer " ++ jsTrim t) },
              some t)) ∧
    (∀ (env : RequestEnv) (store : Store) (cfg : RequestConfig),
        (env.hasCurrentUser = false ∨ (∃ e, env.mintFresh = Except.error e)) →
        env.getItemThrows = false →
        truthy store = false →
        cfg.authorization = none →
        requestInterceptor env store cfg = Except.ok (cfg, store)) := by
  constructor
  · intro env t cfg hmint hget ht
    by_cases hu : env.hasCurrentUser
    · obtain ⟨e, he⟩ : ∃ e, env.mintFresh = Except.error e := by
        rcases hmint with h | h
        · rw [hu] at h
          exact Bool.noConfusion h
        · exact h
      simp [requestInterceptor, requestInterceptorBody, hu, he, hget,
        attachCached, ht]
    · simp [requestInterceptor, requestInterceptorBody, hu, hget,
        attachCached, ht]
  · intro env store cfg hmint hget hstore hcfg
    have hattach : attachCached store cfg = cfg := by
      cases store with
      | none => rfl
      | some t =>
          have ht : t = "" := by
            by_contra hne
            simp [truthy, hne] at hstore
          simp [attachCached, ht]
    by_cases hu : env.hasCurrentUser
    · obtain ⟨e, he⟩ : ∃ e, env.mintFresh = Except.error e := by
        rcases hmint with h | h
        · rw [hu] at h
          exact Bool.noConfusion h
        · exact h
      simp [requestInterceptor, requestInterceptorBody, hu, he, hget, hattach]
    · simp [requestInterceptor, requestInterceptorBody, hu, hget, hattach]

/-- Witness for the C3 theorem: with a signed-out principal and the cached
token `" tok "` in the store, the request goes out with header
`Bearer tok` (whitespace stripped) and the store untouched; with an empty
store the request goes out with no header. -/
theorem requestInterceptor_cached_fallback_witness :
    requestInterceptor
        { hasCurrentUser := false, mintFresh := Except.error "no user",
          getItemThrows := false, setItemThrows := false }
        (some " tok ") { authorization := none } =
      Except.ok ({ authorization := some "Bearer tok" }, some " tok ") ∧
    requestInterceptor
        { hasCurrentUser := false, mintFresh := Except.error "no user",
          getItemThrows := false, setItemThrows := false }
        none { authorization := none } =
      Except.ok ({ authorization := none }, none) := by
  constructor
  · have h := requestInterceptor_cached_fallback.1
      { hasCurrentUser := false, mintFresh := Except.error "no user",
        getItemThrows := false, setItemThrows := false }
      " tok " { authorization := none } (Or.inl rfl) rfl (by decide)
    rw [h]
    rfl
  · exact requestInterceptor_cached_fallback.2
      { hasCurrentUser := false, mintFresh := Except.error "no user",
        getItemThrows := false, setItemThrows := false }
      none { authorization := none } (Or.inl rfl) rfl rfl rfl

/-- C10: the request interceptor's promise always resolves with a request
configuration: every exception raised while obtaining or attaching a
credential — a failing forced mint, a throwing `localStorage` read or
write — is caught by the interceptor's `try`/`catch` structure, so the
outgoing request is never rejected or blocked by credential plumbing. -/
theorem requestInterceptor_never_rejects :
    ∀ (env : RequestEnv) (store : Store) (cfg : RequestConfig),
      ∃ r, requestInterceptor env store cfg = Except.ok r := by
  intro env store cfg
  unfold requestInterceptor
  cases h : requestInterceptorBody env store cfg with
  | ok r => exact ⟨r, rfl⟩
  | error p => exact ⟨(p.2.1, p.2.2), rfl⟩

/-- The environment of the C4 scenario: sign-up (and sign-in) succeed, but
every `getIdToken` call fails with a network error. -/
def mintFailEnv : AuthEnv :=
  { signIn := Except.ok (), signUp := Except.ok (), hasDisplayName := false,
    updateProfile := Except.ok (), mintForced := Except.error "network",
    mintUnforced := Except.error "network" }

/-- Counterexample to claim C4: when sign-up succeeds but obtaining the
credential afterwards fails, `register` swallows the error and returns
`false`, while `login` in the identical situation re-throws the token
error — `register` is not symmetric to `login` on this path. -/
theorem register_swallows_token_error_unlike_login :
    register mintFailEnv none = Except.ok (none, false) ∧
    login mintFailEnv none = Except.error "network" :=
  ⟨rfl, rfl⟩

/-- C4 (amended): `register` re-throws errors of the underlying sign-up
(including a failing profile update) unchanged, like `login`; but on
successful sign-up it obtains its credential with an unforced
`getIdToken()` — not a forced refresh; the forced-refresh mint happens
only inside the lower-level sign-up wrapper, which swallows that mint's
failure — writes it into the Credential Store and returns `true`, and
when obtaining the credential after sign-up fails it swallows the error
and returns `false` (leaving the store at whatever the wrapper produced)
instead of re-throwing as `login` does. -/
theorem register_characterization :
    (∀ (env : AuthEnv) (store : Store) (e : JsError),
        env.signUp = Except.error e →
        register env store = Except.error e) ∧
    (∀ (env : AuthEnv) (store : Store) (e : JsError),
        env.signUp = Except.ok () → env.hasDisplayName = true →
        env.updateProfile = Except.error e →
        register env store = Except.error e) ∧
    (∀ (env : AuthEnv) (store : Store) (t : String),
        env.signUp = Except.ok () → env.hasDisplayName = false →
        env.mintUnforced = Except.ok t →
        register env store = Except.ok (some t, true)) ∧
    (∀ (env : AuthEnv) (store : Store) (e e2 : JsError),
        env.signUp = Except.ok () → env.hasDisplayName = false →
        env.mintForced = Except.error e →
        env.mintUnforced = Except.error e2 →
        register env store = Except.ok (store, false)) ∧
    (∀ (env : AuthEnv) (store : Store) (e : JsError),
        env.signIn = Except.ok () →
        env.mintForced = Except.error e →
        login env store = Except.error e) := by
  refine ⟨?_, ?_, ?_, ?_, ?_⟩
  · intro env store e h
    simp [register, registerWithEmailPassword, h]
  · intro env store e hs hd hp
    simp [register, registerWithEmailPassword, hs, hd, hp]
  · intro env store t hs hd hm
    simp [register, registerWithEmailPassword, hs, hd, hm]
    cases hf : env.mintForced <;> simp [hf]
  · intro env store e e2 hs hd hf hm
    simp [register, registerWithEmailPassword, hs, hd, hf, hm]
  · intro env store e hs hf
    simp [login, loginWithEmailPassword, hs, hf]

/-- Witness for the C4 theorem: in the concrete all-mints-fail
environment with the store previously holding `"old"`, `register`
returns `false` with the store untouched, while `login` re-throws. -/
theorem register_characterization_witness :
    register mintFailEnv (some "old") = Except.ok (some "old", false) ∧
    login mintFailEnv (some "old") = Except.error "network" :=
  ⟨register_characterization.2.2.2.1 mintFailEnv (some "old")
      "network" "network" rfl rfl rfl rfl,
    register_characterization.2.2.2.2 mintFailEnv (some "old") "network"
      rfl rfl⟩

/-- C7: for every question set of length at least 1 and every answer
record, the grading computation returns normally, with a numeric score
equal to the count of correctly answered questions divided by the number
of questions — hence in the interval `[0, 1]` — and a per-question
results array of exactly as many entries as there are questions. -/
theorem gradeQuiz_score_in_unit_interval :
    ∀ (qs : List Question) (sel : AnswerRecord), 1 ≤ qs.length →
      ∃ (score : ℚ) (results : List GradedQuestion),
        gradeQuiz qs sel = Except.ok (JsNum.num score, results) ∧
        score = ((gradeResults qs sel).countP (fun r => r.is_correct) : ℚ) /
          (qs.length : ℚ) ∧
        0 ≤ score ∧ score ≤ 1 ∧ results.length = qs.length := by
  intro qs sel h
  have hlen : (gradeResults qs sel).length = qs.length := by
    simp [gradeResults]
  have hcount :
      (gradeResults qs sel).countP (fun r => r.is_correct) ≤ qs.length := by
    calc (gradeResults qs sel).countP (fun r => r.is_correct)
        ≤ (gradeResults qs sel).length := List.countP_le_length _
      _ = qs.length := hlen
  have hn : qs.length ≠ 0 := by omega
  have hnq : (0 : ℚ) < (qs.length : ℚ) := by
    exact_mod_cast Nat.pos_of_ne_zero hn
  refine ⟨((gradeResults qs sel).countP (fun r => r.is_correct) : ℚ) /
    (qs.length : ℚ), gradeResults qs sel, ?_, rfl, ?_, ?_, hlen⟩
  · simp [gradeQuiz, jsDiv, hn]
  · positivity
  · rw [div_le_one hnq]
    exact_mod_cast hcount

/-- A concrete one-question set used by the grading witnesses. -/
def oneQuestion : Question :=
  { text := "Q", correct_answer := "A) yes", explanation := "E" }

/-- Witness for the C7 theorem at the concrete one-question set with no
answers selected. -/
theorem gradeQuiz_score_in_unit_interval_witness :
    1 ≤ ([oneQuestion] : List Question).length ∧
    (∃ (score : ℚ) (results : List GradedQuestion),
        gradeQuiz [oneQuestion] noAnswers = Except.ok (JsNum.num score, results) ∧
        score = ((gradeResults [oneQuestion] noAnswers).countP
          (fun r => r.is_correct) : ℚ) / (([oneQuestion] : List Question).length : ℚ) ∧
        0 ≤ score ∧ score ≤ 1 ∧
        results.length = ([oneQuestion] : List Question).length) :=
  ⟨Nat.le_refl 1,
    gradeQuiz_score_in_unit_interval [oneQuestion] noAnswers (Nat.le_refl 1)⟩

/-- C8: a question whose position has no entry in the answer record is
marked incorrect (`is_correct = false`) — never correct, never skipped —
and the grading computation still returns normally (it cannot throw on
such positions: the absent property reads back as `undefined`, which the
strict equality simply fails). -/
theorem gradeQuiz_unanswered_scored_incorrect :
    ∀ (qs : List Question) (sel : AnswerRecord) (i : ℕ)
      (h : i < (gradeResults qs sel).length),
      sel i = none →
      ((gradeResults qs sel).get ⟨i, h⟩).is_correct = false ∧
      gradeQuiz qs sel =
        Except.ok
          (jsDiv ((gradeResults qs sel).countP (fun r => r.is_correct))
            qs.length, gradeResults qs sel) := by
  intro qs sel i h hsel
  refine ⟨?_, rfl⟩
  unfold gradeResults at h ⊢
  rw [List.get_eq_getElem, List.getElem_map, List.getElem_enum]
  simp [hsel]

/-- Bound used by the C8 witness: the one-question results array is
non-empty. -/
theorem oneQuestion_results_nonempty :
    0 < (gradeResults [oneQuestion] noAnswers).length := by
  decide

/-- Witness for the C8 theorem: the single unanswered question of the
concrete set is graded incorrect. -/
theorem gradeQuiz_unanswered_scored_incorrect_witness :
    noAnswers 0 = none ∧
    ((gradeResults [oneQuestion] noAnswers).get
        ⟨0, oneQuestion_results_nonempty⟩).is_correct = false :=
  ⟨rfl,
    (gradeQuiz_unanswered_scored_incorrect [oneQuestion] noAnswers 0
      oneQuestion_results_nonempty rfl).1⟩
